import Mathlib

/-!
Shallow embedding of `src/login_interactive_ssh/azext_login_interactive_ssh/custom.py`
(the `login-ssh` Azure CLI extension).

The module has three parts:

* a port-availability controller (`validate_port`) built from a bind probe
  (`validate_port_available`), a TIME_WAIT inspector (`check_port_time_wait`,
  `_get_time_wait_timeout`) and a cancellable one-second-tick wait loop;
* an interception layer: `patched_acquire` (injects the redirect port into
  MSAL's `acquire_token_interactive`), `patched_open` / `patched_get`
  (print the URL instead of opening a browser) and a `can_launch_browser`
  patch;
* the orchestrator `login_ssh`, which snapshots and restores the
  `AZURE_CLI_DISABLE_MSAL_HTTP_CACHE` environment toggle and applies the
  patches through an `ExitStack` scoped to one delegated login call.

Effectful collaborators are embedded as explicit parameters: the outcome of
the k-th socket-bind probe is `avail k`, delivery of a KeyboardInterrupt
during the sleep that follows probe k is `cancel k`, the OS TCP connection
table is a `List Conn` (`none` when `psutil` is unavailable or enumeration is
denied), and `/proc/sys/net/ipv4/tcp_fin_timeout` is an `Option Int`
(`none` when the file is missing or unreadable).  Results of fallible code
are `Except` values; emitted text is returned as explicit output lists.
-/

/-- Outcome of `validate_port` (source lines 84-150).  The source raises
`CLIError` with distinct messages; the four failure constructors stand for the
four distinct raises: out-of-range port, port held by a live non-TIME_WAIT
connection, TIME_WAIT wait budget exhausted, and user cancellation
(`KeyboardInterrupt` converted to `CLIError` at lines 138-142). -/
inductive PortResult where
  | ok
  | invalidPort
  | portInUse
  | portStillUnavailable
  | loginCancelled
deriving DecidableEq, Repr

/-- One row of the OS TCP connection table, as consumed by
`check_port_time_wait` (source lines 49-53): local port, optional remote
port (`conn.raddr` may be an empty tuple), and the connection status string. -/
structure Conn where
  laddrPort : Int
  raddrPort : Option Int
  status : String
deriving DecidableEq, Repr

/-- `_get_time_wait_timeout` (source lines 14-30): return the integer read
from `/proc/sys/net/ipv4/tcp_fin_timeout` when the file exists and parses,
else the fixed default 60.  `procFile` is the successfully parsed file
content, `none` on `OSError`/`ValueError` or a missing file. -/
def get_time_wait_timeout (procFile : Option Int) : Int :=
  procFile.getD 60

/-- The scan inside `check_port_time_wait` (source lines 49-55): walk the
connection table; a row matches when its local port equals the target, or it
has a remote address whose port equals the target, and its status is
TIME_WAIT.  Non-matching rows are skipped (the source only returns inside the
matched branch). -/
def findTimeWait (port : Int) : List Conn → Bool
  | [] => false
  | c :: rest =>
    if (c.laddrPort = port ∨ c.raddrPort = some port) ∧ c.status = "TIME_WAIT" then true
    else findTimeWait port rest

/-- `check_port_time_wait` (source lines 33-63).  `conns = none` embeds the
`ImportError` / `PermissionError` / `OSError` degradation paths, which return
`(False, None)`.  On a TIME_WAIT match the source returns
`(True, _get_time_wait_timeout())`; with no match it returns `(False, None)`. -/
def check_port_time_wait (port : Int) (conns : Option (List Conn))
    (procFile : Option Int) : Bool × Option Int :=
  match conns with
  | none => (false, none)
  | some cs =>
    if findTimeWait port cs then (true, some (get_time_wait_timeout procFile))
    else (false, none)

/-- The countdown loop plus final check of `validate_port` (source lines
115-136).  `i` is the index of the next probe in the global probe sequence
`avail`; `rem` is the remaining wait budget (the Python loop
`for remaining in range(wait_seconds, 0, -1)` runs `wait_seconds` ticks).
Each tick probes once; if the probe fails the source prints the countdown and
sleeps one second, during which a KeyboardInterrupt may arrive (`cancel i`).
After the ticks are exhausted one final probe decides between success and
`portStillUnavailable`.  Returns the outcome together with the number of
probes the loop performed. -/
def waitLoop (avail cancel : Nat → Bool) : Nat → Nat → PortResult × Nat
  | i, 0 => if avail i then (PortResult.ok, 1) else (PortResult.portStillUnavailable, 1)
  | i, rem + 1 =>
    if avail i then (PortResult.ok, 1)
    else if cancel i then (PortResult.loginCancelled, 1)
    else
      match waitLoop avail cancel (i + 1) rem with
      | (r, n) => (r, n + 1)

/-- `validate_port` (source lines 84-150).  Probe outcomes come from `avail`
(probe 0 is the initial `validate_port_available` call at line 101, the wait
protocol consumes indices 1, 2, ...), cancellation signals from `cancel`, and
the inspector inputs from `conns` / `procFile`.  Returns the outcome paired
with the total number of bind probes performed.  The `ws.getD 60` mirrors the
`if wait_seconds is None: wait_seconds = 60` default at lines 108-109, and
`.toNat` mirrors `range(wait_seconds, 0, -1)` being empty for non-positive
budgets. -/
def validate_port (port : Int) (avail cancel : Nat → Bool)
    (conns : Option (List Conn)) (procFile : Option Int) : PortResult × Nat :=
  if ¬ (1024 ≤ port ∧ port ≤ 65535) then (PortResult.invalidPort, 0)
  else if avail 0 then (PortResult.ok, 1)
  else
    match check_port_time_wait port conns procFile with
    | (true, ws) =>
      match waitLoop avail cancel 1 (ws.getD 60).toNat with
      | (r, n) => (r, n + 1)
    | (false, _) => (PortResult.portInUse, 1)

/-- Python dict assignment `kwargs[k] = v` on a keyword-argument mapping,
embedded as an association list: replace the value of an existing key in
place, or append a new binding. -/
def dictSet {V : Type} : List (String × V) → String → V → List (String × V)
  | [], k, v => [(k, v)]
  | (k0, v0) :: rest, k, v =>
    if k0 = k then (k, v) :: rest else (k0, v0) :: dictSet rest k v

/-- Python dict lookup `kwargs[k]` on the association-list embedding. -/
def dictGet {V : Type} : List (String × V) → String → Option V
  | [], _ => none
  | (k0, v0) :: rest, k => if k0 = k then some v0 else dictGet rest k

/-- `patched_acquire` (source lines 239-241): the substitution installed on
`PublicClientApplication.acquire_token_interactive`.  It sets
`kwargs['port'] = oidc_redirect_port` and then tail-calls the saved original
with the same receiver, the same positional arguments and the updated keyword
arguments, returning the original's result unchanged. -/
def patched_acquire {S A V R : Type} (original : S → A → List (String × V) → R)
    (oidc_redirect_port : V) (self : S) (args : A)
    (kwargs : List (String × V)) : R :=
  original self args (dictSet kwargs "port" oidc_redirect_port)

/-- Output stream of one `print` call.  `patched_open` uses bare `print`
(no `file=` argument), which writes to standard output; the countdown
messages in `validate_port` pass `file=sys.stderr`. -/
inductive OutStream where
  | stdout
  | stderr
deriving DecidableEq, Repr, BEq

/-- The delimiter line of the sign-in banner: the Python expression
`"=" * 70`. -/
def banner : String :=
  String.mk (List.replicate 70 '=')

/-- `patched_open` (source lines 160-167): the substitution installed on
`webbrowser.open`.  It never launches a browser; it emits five `print` calls
(each element of the returned list is one call: stream, printed text) and
returns `True` unconditionally.  All five prints are bare `print`, hence on
standard output. -/
def patched_open (url : String) (new : Int) (autoraise : Bool) :
    Bool × List (OutStream × String) :=
  (true,
    [(OutStream.stdout, "\n" ++ banner),
     (OutStream.stdout, "To sign in, use a web browser to open the page:"),
     (OutStream.stdout, banner),
     (OutStream.stdout, url),
     (OutStream.stdout, banner ++ "\n")])

/-- A Python exception as it crosses `login_ssh`'s handlers.  `cliError` is
`azure.cli.core.util.CLIError` (the recognized user-facing kind), `exn` is
any other `Exception` subclass carrying `str(e)`, and `keyboardInterrupt` is
`KeyboardInterrupt`, which derives from `BaseException` but not from
`Exception` and therefore is NOT caught by `except Exception` at source
line 273. -/
inductive PyExn where
  | cliError (msg : String)
  | exn (msg : String)
  | keyboardInterrupt
deriving DecidableEq, Repr

/-- `True` exactly on a raised `CLIError`. -/
def isCliError {R : Type} : Except PyExn R → Bool
  | Except.error (PyExn.cliError _) => true
  | _ => false

/-- One patch-lifecycle event: a substitution being applied
(`mock._patch.__enter__` via `ExitStack.enter_context`) or released
(`__exit__` during `ExitStack` unwinding). -/
inductive PatchEvent where
  | applied (name : String)
  | released (name : String)
deriving DecidableEq, Repr

/-- The process-wide state `login_ssh` mutates: the value of the
`AZURE_CLI_DISABLE_MSAL_HTTP_CACHE` environment variable (`none` = unset),
the stack of currently active substitutions (most recently applied first),
and the full trace of apply/release events. -/
structure LoginState where
  env : Option String
  active : List String
  trace : List PatchEvent
deriving DecidableEq, Repr

/-- Apply one substitution: push it on the active stack and record the
event. -/
def enterPatch (s : LoginState) (p : String) : LoginState :=
  ⟨s.env, p :: s.active, s.trace ++ [PatchEvent.applied p]⟩

/-- Release the listed substitutions in order (the list is the active stack,
most recent first, so this is LIFO release), recording each event. -/
def releaseList (env : Option String) (tr : List PatchEvent) :
    List String → LoginState
  | [] => ⟨env, [], tr⟩
  | p :: rest => releaseList env (tr ++ [PatchEvent.released p]) rest

/-- `ExitStack` unwinding: release every active substitution in reverse
application order. -/
def releaseAll (s : LoginState) : LoginState :=
  releaseList s.env s.trace s.active

/-- The `for p in patches: stack.enter_context(p)` loop (source lines
262-263).  `fails p = some m` means entering patch `p` raises an exception
with message `m`; the raise happens before `p` becomes active, and the
substitutions already entered stay on the stack (to be unwound by the
`ExitStack`). -/
def enterAll (fails : String → Option String) :
    LoginState → List String → Option String × LoginState
  | s, [] => (none, s)
  | s, p :: rest =>
    match fails p with
    | some m => (some m, s)
    | none => enterAll fails (enterPatch s p) rest

/-- The patch list built at source lines 229-257, in application order: the
MSAL acquire patch, the two webbrowser patches, then the
`can_launch_browser` patch.  `unittest.mock.patch(target_string, new)` only
splits the target string at creation time and resolves the module attribute
at `__enter__`, so `create_can_launch_browser_patch()` itself never raises
and its patch object is always appended. -/
def patchNames : List String :=
  ["PublicClientApplication.acquire_token_interactive",
   "webbrowser.open",
   "webbrowser.get",
   "azure.cli.core.util.can_launch_browser"]

/-- Message of the `AttributeError` that `unittest.mock` raises at
`__enter__` when the patch target attribute does not exist. -/
def attrErrMsg : String :=
  "module azure.cli.core.util does not have the attribute can_launch_browser"

/-- Which patch entries raise: when `azure.cli.core.util` has no
`can_launch_browser` attribute, entering that patch raises `AttributeError`
(deferred target resolution); every other entry succeeds. -/
def canLaunchFails (canLaunchExists : Bool) (p : String) : Option String :=
  if p == "azure.cli.core.util.can_launch_browser" && !canLaunchExists then
    some attrErrMsg
  else none

/-- `login_ssh` (source lines 195-284), embedded as a function of its
environment: `validateErr` is the outcome of `validate_port` (`some m` = it
raised `CLIError m`, before any state mutation), `env0` the pre-call value of
`AZURE_CLI_DISABLE_MSAL_HTTP_CACHE`, `msalAvailable` whether
`from msal import PublicClientApplication` succeeds, `canLaunchExists`
whether `azure.cli.core.util.can_launch_browser` exists, and `externalLogin`
the outcome of the delegated `original_login` call.  Returns the Python
result (value or propagated exception) together with the final process
state.  Faithful control flow: the MSAL `ImportError` becomes a `CLIError`
inside the outer `try`; an exception while entering the `ExitStack` unwinds
the already-entered patches and reaches `except Exception`, which re-raises
`CLIError` unchanged and wraps any other `Exception` into
`CLIError ("Login failed: " ++ msg)`; `KeyboardInterrupt` is not an
`Exception` and propagates unwrapped; the `finally` at lines 279-284 always
restores the environment variable to `env0` (removing it when `env0` is
`none`).  The best-effort cache-file deletion at lines 216-221 touches no
modelled state. -/
def login_ssh (R : Type) (validateErr : Option String) (env0 : Option String)
    (msalAvailable canLaunchExists : Bool)
    (externalLogin : Except PyExn R) : Except PyExn R × LoginState :=
  match validateErr with
  | some m => (Except.error (PyExn.cliError m), ⟨env0, [], []⟩)
  | none =>
    let s1 : LoginState := ⟨some "1", [], []⟩
    let body : Except PyExn R × LoginState :=
      if !msalAvailable then
        (Except.error (PyExn.cliError "MSAL library not found. Cannot apply port patch."), s1)
      else
        match enterAll (canLaunchFails canLaunchExists) s1 patchNames with
        | (some m, sE) =>
          (Except.error (PyExn.cliError ("Login failed: " ++ m)), releaseAll sE)
        | (none, sA) =>
          match externalLogin with
          | Except.ok r => (Except.ok r, releaseAll sA)
          | Except.error (PyExn.cliError m) =>
            (Except.error (PyExn.cliError m), releaseAll sA)
          | Except.error (PyExn.exn m) =>
            (Except.error (PyExn.cliError ("Login failed: " ++ m)), releaseAll sA)
          | Except.error PyExn.keyboardInterrupt =>
            (Except.error PyExn.keyboardInterrupt, releaseAll sA)
    (body.1, ⟨env0, body.2.active, body.2.trace⟩)

/-- The substitutions applied during a trace, in order. -/
def appliedOf : List PatchEvent → List String
  | [] => []
  | PatchEvent.applied p :: rest => p :: appliedOf rest
  | PatchEvent.released _ :: rest => appliedOf rest

/-- The substitutions released during a trace, in order. -/
def releasedOf : List PatchEvent → List String
  | [] => []
  | PatchEvent.released p :: rest => p :: releasedOf rest
  | PatchEvent.applied _ :: rest => releasedOf rest

/-- When every probe fails and no cancellation arrives, the wait loop runs
all `rem` ticks plus the final check (hence `rem + 1` probes) and reports
`portStillUnavailable`. -/
theorem waitLoop_all_unavail (avail cancel : Nat → Bool)
    (hA : ∀ i, avail i = false) (hC : ∀ i, cancel i = false) :
    ∀ rem i, waitLoop avail cancel i rem = (PortResult.portStillUnavailable, rem + 1) := by
  intro rem
  induction rem with
  | zero => intro i; simp [waitLoop, hA]
  | succ n ih => intro i; simp [waitLoop, hA, hC, ih]

/-- When the probes at offsets `0..k` from the loop start all fail, no
cancellation arrives before offset `k`, and a cancellation arrives at offset
`k < rem`, the wait loop stops with `loginCancelled` after exactly `k + 1`
probes. -/
theorem waitLoop_cancel_at (avail cancel : Nat → Bool) :
    ∀ k rem i, k < rem →
      (∀ j, j ≤ k → avail (i + j) = false) →
      (∀ j, j < k → cancel (i + j) = false) →
      cancel (i + k) = true →
      waitLoop avail cancel i rem = (PortResult.loginCancelled, k + 1) := by
  intro k
  induction k with
  | zero =>
    intro rem i hk hA hC hT
    match rem, hk with
    | rem + 1, _ =>
      have h0 : avail i = false := by simpa using hA 0 (Nat.le_refl 0)
      have h1 : cancel i = true := by simpa using hT
      simp [waitLoop, h0, h1]
  | succ k ih =>
    intro rem i hk hA hC hT
    match rem, hk with
    | rem + 1, hk =>
      have h0 : avail i = false := by simpa using hA 0 (Nat.zero_le _)
      have h1 : cancel i = false := by simpa using hC 0 (Nat.succ_pos k)
      have hrec : waitLoop avail cancel (i + 1) rem = (PortResult.loginCancelled, k + 1) := by
        refine ih rem (i + 1) (Nat.lt_of_succ_lt_succ hk) ?_ ?_ ?_
        · intro j hj
          have := hA (j + 1) (Nat.succ_le_succ hj)
          simpa [Nat.add_comm, Nat.add_assoc, Nat.add_left_comm] using this
        · intro j hj
          have := hC (j + 1) (Nat.succ_lt_succ hj)
          simpa [Nat.add_comm, Nat.add_assoc, Nat.add_left_comm] using this
        · have := hT
          simpa [Nat.add_comm, Nat.add_assoc, Nat.add_left_comm] using this
      simp [waitLoop, h0, h1, hrec]

/-- C6: for every port outside [1024, 65535], `validate_port` fails with the
invalid-port error having performed zero bind probes and no connection-table
inspection (the result is independent of `conns` and `procFile`, which are
universally quantified here). -/
theorem C6_invalid_port_no_probe (port : Int)
    (h : port < 1024 ∨ port > 65535)
    (avail cancel : Nat → Bool) (conns : Option (List Conn)) (procFile : Option Int) :
    validate_port port avail cancel conns procFile = (PortResult.invalidPort, 0) := by
  have hcond : ¬ (1024 ≤ port ∧ port ≤ 65535) := by
    rcases h with h | h <;> intro hc <;> omega
  simp [validate_port, hcond]

/-- Witness for C6 at the concrete port 80. -/
theorem C6_invalid_port_no_probe_witness :
    validate_port 80 (fun _ => true) (fun _ => false) none none
      = (PortResult.invalidPort, 0) :=
  C6_invalid_port_no_probe 80 (Or.inl (by decide)) (fun _ => true) (fun _ => false) none none

/-- C7: for every in-range port whose initial probe fails and whose
connection-table inspection reports no TIME_WAIT match, `validate_port`
fails immediately with the port-in-use error after exactly the one initial
probe — it never enters the wait loop. -/
theorem C7_port_in_use_immediate (port : Int)
    (hp : 1024 ≤ port ∧ port ≤ 65535)
    (avail cancel : Nat → Bool) (h0 : avail 0 = false)
    (conns : Option (List Conn)) (procFile : Option Int)
    (hT : (check_port_time_wait port conns procFile).1 = false) :
    validate_port port avail cancel conns procFile = (PortResult.portInUse, 1) := by
  cases hEq : check_port_time_wait port conns procFile with
  | mk b ws =>
    rw [hEq] at hT
    simp only [Prod.fst] at hT
    subst hT
    simp [validate_port, hp.1, hp.2, h0, hEq]

/-- Witness for C7: port 1024, failing probe, no connection table
(`psutil` unavailable), hence no TIME_WAIT verdict. -/
theorem C7_port_in_use_immediate_witness :
    validate_port 1024 (fun _ => false) (fun _ => false) none none
      = (PortResult.portInUse, 1) :=
  C7_port_in_use_immediate 1024 ⟨by decide, by decide⟩
    (fun _ => false) (fun _ => false) rfl none none rfl

/-- C10: whenever `check_port_time_wait` reports a TIME_WAIT match, the
accompanying remaining-seconds value is exactly
`some (get_time_wait_timeout procFile)` — the platform linger duration or
the fixed default 60 — and in particular never `none`, so the
`if wait_seconds is None: wait_seconds = 60` branch of `validate_port` is
unreachable. -/
theorem C10_time_wait_remaining_concrete (port : Int) (conns : Option (List Conn))
    (procFile : Option Int)
    (h : (check_port_time_wait port conns procFile).1 = true) :
    (check_port_time_wait port conns procFile).2
        = some (get_time_wait_timeout procFile) ∧
      (check_port_time_wait port conns procFile).2 ≠ none := by
  cases conns with
  | none => simp [check_port_time_wait] at h
  | some cs =>
    by_cases hf : findTimeWait port cs = true
    · simp [check_port_time_wait, hf]
    · simp [check_port_time_wait, hf] at h

/-- Witness for C10 at a one-row connection table in TIME_WAIT state. -/
theorem C10_time_wait_remaining_concrete_witness :
    (check_port_time_wait 2000 (some [⟨2000, none, "TIME_WAIT"⟩]) (some 30)).2
        = some (get_time_wait_timeout (some 30)) ∧
      (check_port_time_wait 2000 (some [⟨2000, none, "TIME_WAIT"⟩]) (some 30)).2 ≠ none :=
  C10_time_wait_remaining_concrete 2000 (some [⟨2000, none, "TIME_WAIT"⟩]) (some 30)
    (by decide)

/-- C4: for a wait budget `N ≥ 1` delivered by the inspector, if the initial
probe and every probe of the wait protocol report unavailable and no
cancellation arrives, `validate_port` fails with the still-unavailable error
and the wait protocol performs exactly `N + 1` probes (`N` countdown ticks
plus one final check); the trailing `+ 1` in the probe count is the initial
pre-wait probe. -/
theorem C4_timeout_probe_count (N : Nat) (hN : 1 ≤ N) (port : Int)
    (hp : 1024 ≤ port ∧ port ≤ 65535)
    (avail cancel : Nat → Bool)
    (hA : ∀ i, avail i = false) (hC : ∀ i, cancel i = false)
    (conns : Option (List Conn)) (procFile : Option Int)
    (hT : check_port_time_wait port conns procFile = (true, some (N : Int))) :
    validate_port port avail cancel conns procFile
      = (PortResult.portStillUnavailable, (N + 1) + 1) := by
  have hw := waitLoop_all_unavail avail cancel hA hC N 1
  simp [validate_port, hp.1, hp.2, hA 0, hT, hw]

/-- Witness for C4: budget 3 from the proc file, all probes fail, result is
`portStillUnavailable` after 5 probes in total (1 initial + 3 ticks + 1
final). -/
theorem C4_timeout_probe_count_witness :
    validate_port 1024 (fun _ => false) (fun _ => false)
        (some [⟨1024, none, "TIME_WAIT"⟩]) (some 3)
      = (PortResult.portStillUnavailable, 5) :=
  C4_timeout_probe_count 3 (by decide) 1024 ⟨by decide, by decide⟩
    (fun _ => false) (fun _ => false) (fun _ => rfl) (fun _ => rfl)
    (some [⟨1024, none, "TIME_WAIT"⟩]) (some 3) (by decide)

/-- C5: if a cancellation signal is delivered at tick `k` of the wait
protocol (probe index `k + 1`; the probes up to and including that tick all
failed and no earlier tick was cancelled), `validate_port` fails with the
cancellation error — distinct from the timeout-exhaustion error — and the
total probe count is exactly `k + 2`, i.e. no probing happens after the
cancellation. -/
theorem C5_cancel_stops_wait (N k : Nat) (hk : k < N) (port : Int)
    (hp : 1024 ≤ port ∧ port ≤ 65535)
    (avail cancel : Nat → Bool)
    (hA : ∀ i, i ≤ k + 1 → avail i = false)
    (hC : ∀ j, 1 ≤ j → j ≤ k → cancel j = false)
    (hT : cancel (k + 1) = true)
    (conns : Option (List Conn)) (procFile : Option Int)
    (hW : check_port_time_wait port conns procFile = (true, some (N : Int))) :
    validate_port port avail cancel conns procFile
        = (PortResult.loginCancelled, (k + 1) + 1) ∧
      PortResult.loginCancelled ≠ PortResult.portStillUnavailable := by
  constructor
  · have hw : waitLoop avail cancel 1 N = (PortResult.loginCancelled, k + 1) := by
      refine waitLoop_cancel_at avail cancel k N 1 hk ?_ ?_ ?_
      · intro j hj
        exact hA (1 + j) (by omega)
      · intro j hj
        exact hC (1 + j) (by omega) (by omega)
      · rw [Nat.add_comm 1 k]
        exact hT
    have h0 : avail 0 = false := hA 0 (by omega)
    simp [validate_port, hp.1, hp.2, h0, hW, hw]
  · decide

/-- Witness for C5: budget 2, cancellation during the first tick, two probes
in total. -/
theorem C5_cancel_stops_wait_witness :
    validate_port 1024 (fun _ => false) (fun i => decide (i = 1))
        (some [⟨1024, none, "TIME_WAIT"⟩]) (some 2)
      = (PortResult.loginCancelled, 2) ∧
    PortResult.loginCancelled ≠ PortResult.portStillUnavailable :=
  C5_cancel_stops_wait 2 0 (by decide) 1024 ⟨by decide, by decide⟩
    (fun _ => false) (fun i => decide (i = 1))
    (fun _ _ => rfl) (fun j h1 h2 => absurd h2 (by omega))
    (by decide) (some [⟨1024, none, "TIME_WAIT"⟩]) (some 2) (by decide)

/-- Looking up any key after the Python dict assignment `d[k] = v`: the key
`k` now maps to `v` (overriding any prior binding) and every other key is
unchanged. -/
theorem dictGet_dictSet {V : Type} (k : String) (v : V) :
    ∀ (l : List (String × V)) (q : String),
      dictGet (dictSet l k v) q = if q = k then some v else dictGet l q := by
  intro l
  induction l with
  | nil =>
    intro q
    by_cases h : q = k
    · simp [dictSet, dictGet, h]
    · have h2 : ¬ (k = q) := fun hh => h hh.symm
      simp [dictSet, dictGet, h, h2]
  | cons p rest ih =>
    intro q
    obtain ⟨k0, v0⟩ := p
    by_cases hk : k0 = k
    · subst hk
      by_cases hq : q = k0
      · simp [dictSet, dictGet, hq]
      · have h2 : ¬ (k0 = q) := fun hh => hq hh.symm
        simp [dictSet, dictGet, hq, h2]
    · by_cases hq : k0 = q
      · subst hq
        simp [dictSet, dictGet, hk]
      · simp [dictSet, dictGet, hk, hq, ih q]

/-- C2: `patched_acquire` forwards the receiver, the positional arguments and
the original's return value unchanged, and the forwarded keyword arguments
map the key "port" to the configured redirect port — overriding any
caller-supplied binding — while every other key keeps its caller-supplied
value. -/
theorem C2_port_injected {S A V R : Type}
    (original : S → A → List (String × V) → R) (oidc_redirect_port : V)
    (self : S) (args : A) (kwargs : List (String × V)) :
    patched_acquire original oidc_redirect_port self args kwargs
        = original self args (dictSet kwargs "port" oidc_redirect_port) ∧
      ∀ q, dictGet (dictSet kwargs "port" oidc_redirect_port) q
        = if q = "port" then some oidc_redirect_port else dictGet kwargs q :=
  ⟨rfl, dictGet_dictSet "port" oidc_redirect_port kwargs⟩

/-- C3 counterexample: at a concrete well-formed URL, `patched_open` writes
nothing at all to the standard error stream — its non-empty output, URL
included, goes to standard output — refuting the claim that the URL is
written to standard error. -/
theorem C3_counterexample :
    ((patched_open "https://contoso.test/auth" 0 true).2.filter
        (fun e => e.1 == OutStream.stderr)) = [] ∧
      (patched_open "https://contoso.test/auth" 0 true).2 ≠ [] ∧
      (OutStream.stdout, "https://contoso.test/auth")
        ∈ (patched_open "https://contoso.test/auth" 0 true).2 := by
  refine ⟨by decide, by decide, by simp [patched_open]⟩

/-- C3 amended: for every URL string, `patched_open` returns the success
value `true`, raises nothing (it is total), launches no browser (its only
effect is the returned print list), and writes the URL to STANDARD OUTPUT
surrounded by the delimiter banner. -/
theorem C3_url_banner_stdout (url : String) (new : Int) (autoraise : Bool) :
    (patched_open url new autoraise).1 = true ∧
      ((patched_open url new autoraise).2.all (fun e => e.1 == OutStream.stdout)) = true ∧
      (OutStream.stdout, url) ∈ (patched_open url new autoraise).2 ∧
      (patched_open url new autoraise).2
        = [(OutStream.stdout, "\n" ++ banner),
           (OutStream.stdout, "To sign in, use a web browser to open the page:"),
           (OutStream.stdout, banner),
           (OutStream.stdout, url),
           (OutStream.stdout, banner ++ "\n")] := by
  refine ⟨rfl, rfl, ?_, rfl⟩
  simp [patched_open]

/-- Releasing a stack of substitutions empties the active stack, preserves
the environment value and appends one release event per entry, in stack
order. -/
theorem releaseList_eq (env : Option String) :
    ∀ (l : List String) (tr : List PatchEvent),
      releaseList env tr l = ⟨env, [], tr ++ l.map PatchEvent.released⟩ := by
  intro l
  induction l with
  | nil => intro tr; simp [releaseList]
  | cons p rest ih => intro tr; simp [releaseList, ih]

/-- C1: every `login_ssh` run that reaches the environment-toggle mutation
(`validate_port` did not raise), however it exits — successful delegated
login, MSAL import failure, patch-entry failure, recognized `CLIError`,
wrapped exception or propagated `KeyboardInterrupt` — ends with the
`AZURE_CLI_DISABLE_MSAL_HTTP_CACHE` variable equal to its pre-call value
(unset again when it was unset), no substitution still active, and the
released substitutions exactly the applied ones in reverse order. -/
theorem C1_restore_env_and_patches (R : Type) (validateErr env0 : Option String)
    (msalAvailable canLaunchExists : Bool) (externalLogin : Except PyExn R)
    (h : validateErr = none) :
    (login_ssh R validateErr env0 msalAvailable canLaunchExists externalLogin).2.env
        = env0 ∧
      (login_ssh R validateErr env0 msalAvailable canLaunchExists externalLogin).2.active
        = [] ∧
      releasedOf
          (login_ssh R validateErr env0 msalAvailable canLaunchExists externalLogin).2.trace
        = (appliedOf
            (login_ssh R validateErr env0 msalAvailable canLaunchExists
              externalLogin).2.trace).reverse := by
  subst h
  cases msalAvailable with
  | false => simp [login_ssh, appliedOf, releasedOf]
  | true =>
    cases canLaunchExists with
    | false =>
      simp [login_ssh, enterAll, canLaunchFails, patchNames, enterPatch, releaseAll,
        releaseList, appliedOf, releasedOf]
    | true =>
      cases externalLogin with
      | ok r =>
        simp [login_ssh, enterAll, canLaunchFails, patchNames, enterPatch, releaseAll,
          releaseList, appliedOf, releasedOf]
      | error e =>
        cases e <;>
          simp [login_ssh, enterAll, canLaunchFails, patchNames, enterPatch, releaseAll,
            releaseList, appliedOf, releasedOf]

/-- Witness for C1 at a concrete run: previously-set toggle, everything
available, delegated login succeeds. -/
theorem C1_restore_env_and_patches_witness :
    (login_ssh Nat none (some "0") true true (Except.ok 5)).2.env = some "0" ∧
      (login_ssh Nat none (some "0") true true (Except.ok 5)).2.active = [] ∧
      releasedOf (login_ssh Nat none (some "0") true true (Except.ok 5)).2.trace
        = (appliedOf (login_ssh Nat none (some "0") true true (Except.ok 5)).2.trace).reverse :=
  C1_restore_env_and_patches Nat none (some "0") true true (Except.ok 5) rfl

/-- C8 (bug evaluation): when `azure.cli.core.util.can_launch_browser` does
not exist, `login_ssh` does NOT skip that substitution non-fatally: the
`AttributeError` raised while entering the patch inside the `ExitStack`
escapes the creation-time `try/except` (which can never fire, since
`mock.patch` resolves its target only at `__enter__`), is caught by the
generic `except Exception` and login fails with a wrapped `CLIError`
instead of returning the delegated login's result. -/
theorem C8_missing_can_launch_fails_login :
    (login_ssh Nat none none true false (Except.ok 7)).1
        = Except.error (PyExn.cliError ("Login failed: " ++ attrErrMsg)) ∧
      (login_ssh Nat none none true false (Except.ok 7)).1 ≠ Except.ok 7 := by
  constructor
  · rfl
  · intro h
    rw [show (login_ssh Nat none none true false (Except.ok 7)).1
          = Except.error (PyExn.cliError ("Login failed: " ++ attrErrMsg)) from rfl] at h
    exact Except.noConfusion h

/-- C9 counterexample: a `KeyboardInterrupt` raised by the delegated login
routine is an exception that is not a `CLIError`, yet `login_ssh` propagates
it unwrapped (as itself, not as any `CLIError`), because `except Exception`
does not catch `BaseException`-only signals. -/
theorem C9_counterexample :
    (login_ssh Nat none none true true (Except.error PyExn.keyboardInterrupt)).1
        = Except.error PyExn.keyboardInterrupt ∧
      isCliError
          (login_ssh Nat none none true true (Except.error PyExn.keyboardInterrupt)).1
        = false := by
  refine ⟨rfl, rfl⟩

/-- C9 amended: a non-`CLIError` `Exception` raised by the delegated login
routine is wrapped into `CLIError ("Login failed: " ++ msg)`; a `CLIError`
propagates unchanged; a `KeyboardInterrupt` (`BaseException` only) also
propagates unchanged, not wrapped. -/
theorem C9_wrap_exception_kinds (R : Type) (env0 : Option String) (m : String) :
    (login_ssh R none env0 true true (Except.error (PyExn.exn m))).1
        = Except.error (PyExn.cliError ("Login failed: " ++ m)) ∧
      (login_ssh R none env0 true true (Except.error (PyExn.cliError m))).1
        = Except.error (PyExn.cliError m) ∧
      (login_ssh R none env0 true true (Except.error PyExn.keyboardInterrupt)).1
        = Except.error PyExn.keyboardInterrupt := by
  refine ⟨rfl, rfl, rfl⟩

